import Mathlib

/-!
Verification of the studybuddy client-side orchestration logic.

This file gives a shallow embedding, in Lean, of the pure state-transition
logic of the studybuddy single-page application: the quiz generation form
(`src/components/dashboard/QuizGenerator.tsx`), the quiz-taking state machine
(`TakeQuiz`), the chat surfaces (`src/pages/ChatPage.tsx`,
`src/components/ChatbotFAB.tsx`), and the results review page
(`src/pages/QuizResults.tsx`).  JavaScript string primitives used by that code
(`String.prototype.split`, `trim`, `parseInt`, `Array.prototype.join`,
JS truthiness of numbers and strings) are modelled structurally over `List Char`
and `Option` so that every definition is executable by the kernel.  Backend
calls are modelled by their outcome (`Except`), since the client treats the
REST service as opaque.
-/

/-! ## JavaScript string primitives, modelled over `List Char` -/

/-- Whitespace characters removed by the JS `trim` for the inputs occurring in
this application. -/
def isWhitespaceChar (c : Char) : Bool :=
  c = ' ' || c = '\t' || c = '\n' || c = '\r'

/-- Drop leading whitespace characters. -/
def dropLeadingWs : List Char → List Char
  | [] => []
  | c :: cs => if isWhitespaceChar c then dropLeadingWs cs else c :: cs

/-- JS `String.prototype.trim` on the underlying character list: drop leading
and trailing whitespace. -/
def trimChars (cs : List Char) : List Char :=
  ((dropLeadingWs ((dropLeadingWs cs).reverse)).reverse)

/-- JS `s.trim()`. -/
def jsTrim (s : String) : String :=
  String.mk (trimChars s.data)

/-- JS `s.split(sep)` for a single-character separator: splitting the empty
string yields one empty field, matching `"".split(c) = [""]` up to the
application usage (all call sites immediately drop empty fields). -/
def splitOnChar (sep : Char) : List Char → List (List Char)
  | [] => [[]]
  | c :: cs =>
    let rest := splitOnChar sep cs
    if c = sep then [] :: rest
    else
      match rest with
      | [] => [[c]]
      | r :: rs => (c :: r) :: rs

/-- Does `cs` start with the character sequence `pat`? -/
def startsWithSeq : List Char → List Char → Bool
  | [], _ => true
  | _ :: _, [] => false
  | p :: ps, c :: cs => p = c && startsWithSeq ps cs

/-- JS `s.includes(pat)` on character lists. -/
def containsSeq (pat : List Char) : List Char → Bool
  | [] => startsWithSeq pat []
  | c :: cs => startsWithSeq pat (c :: cs) || containsSeq pat (cs)

/-- JS `array.join(",")` for a list of strings. -/
def joinComma : List String → String
  | [] => ""
  | [s] => s
  | s :: t :: rest => s ++ "," ++ joinComma (t :: rest)

/-- Digits of the maximal leading digit run of a character list
(used by the JS `parseInt` model). -/
def takeDigits : List Char → List Nat
  | [] => []
  | c :: cs => if c.isDigit then (c.toNat - 48) :: takeDigits cs else []

/-- Interpret a digit list (most significant first) as a natural number. -/
def digitsToNat (ds : List Nat) : Nat :=
  ds.foldl (fun acc d => acc * 10 + d) 0

/-- JS `parseInt(s)` (radix 10): skip leading whitespace, read an optional
sign, then the maximal leading digit run; `none` models `NaN`. -/
def jsParseInt (s : String) : Option Int :=
  match dropLeadingWs s.data with
  | '-' :: rest =>
    let ds := takeDigits rest
    if ds.isEmpty then none else some (-(digitsToNat ds : Int))
  | '+' :: rest =>
    let ds := takeDigits rest
    if ds.isEmpty then none else some ((digitsToNat ds : Int))
  | rest =>
    let ds := takeDigits rest
    if ds.isEmpty then none else some ((digitsToNat ds : Int))

/-! ## JS truthiness helpers -/

/-- JS truthiness of an optional string value: `undefined` and `""` are falsy. -/
def jsTruthy : Option String → Bool
  | some s => s ≠ ""
  | none => false

/-- JS `a || b` on optional string values. -/
def jsOrStr (a b : Option String) : Option String :=
  if jsTruthy a then a else b

/-- JS `a || b` where `a` is an optional number (`undefined` and `0` are
falsy) and `b` a number. -/
def jsOrNat (a : Option Nat) (b : Nat) : Nat :=
  match a with
  | some n => if n = 0 then b else n
  | none => b

/-! ## Index-keyed record objects

The application stores per-question answers and self-scores in JS objects
keyed by the question index.  These are modelled as association lists with
first-match lookup and in-place overwrite. -/

/-- Lookup in an index-keyed object. -/
def lookupIdx {α : Type} : List (Nat × α) → Nat → Option α
  | [], _ => none
  | (j, v) :: rest, i => if j = i then some v else lookupIdx rest i

/-- Overwrite (or insert) the value at an index, leaving other keys unchanged;
models the JS spread update `(prev) => (... prev, [index]: value ...)`. -/
def setIdx {α : Type} : List (Nat × α) → Nat → α → List (Nat × α)
  | [], i, v => [(i, v)]
  | (j, w) :: rest, i, v =>
    if j = i then (j, v) :: rest else (j, w) :: setIdx rest i v

/-! ## Quiz generation form: question count input (QuizGenerator.tsx) -/

/-- The `maxQuestions` constant of `QuizGenerator`. -/
def maxQuestions : Int := 50

/-- The `useState(15)` default of the question-count state. -/
def questionCountDefault : Int := 15

/-- Embeds the question-count `Input` `onChange` handler of
`QuizGenerator.tsx`:
`setQuestionCount(Math.min(maxQuestions, Math.max(1, parseInt(e.target.value) || 1)))`.
Note that in JS both `NaN` and `0` are falsy, so `parseInt(v) || 1` yields `1`
for empty and zero inputs. -/
def onQuestionCountChange (value : String) : Int :=
  let p : Int :=
    match jsParseInt value with
    | none => 1
    | some 0 => 1
    | some n => n
  min maxQuestions (max 1 p)

/-- C4: for every typed value the stored question count is clamped to the
interval from 1 to 50; typing 999 yields 50, typing 0 or leaving the field
empty yields 1, and the default is 15. -/
theorem question_count_clamped (value : String) :
    1 ≤ onQuestionCountChange value ∧ onQuestionCountChange value ≤ 50 ∧
    onQuestionCountChange "999" = 50 ∧ onQuestionCountChange "0" = 1 ∧
    onQuestionCountChange "" = 1 ∧ questionCountDefault = 15 := by
  unfold onQuestionCountChange maxQuestions
  refine ⟨le_min (by norm_num) (le_max_left 1 _), min_le_left _ _,
    by decide, by decide, by decide, rfl⟩

/-! ## Chat surfaces (ChatPage.tsx and the ContextAwareChatbot of ChatbotFAB.tsx)

Both chat surfaces contain byte-for-byte identical `sendMessage` and
`clearChat` logic; one embedding covers both. -/

/-- A local chat message: `sender` is the `type` field (`"user"` or `"ai"`),
`message` the body.  The clock-derived `id` and `timestamp` fields carry no
logic and are omitted. -/
structure ChatMessage where
  sender : String
  message : String
deriving DecidableEq, Repr

/-- The `ChatContext` state object.  `folder_id` is an optional key of the JS
object; the three id lists are always-present keys. -/
structure ChatContextState where
  folder_id : Option String
  selected_link_ids : List String
  selected_test_ids : List String
  selected_submission_ids : List String
deriving DecidableEq, Repr

/-- `Object.keys(context).length` for the context state object: the three id
lists are always present, `folder_id` only when set. -/
def contextNumKeys (c : ChatContextState) : Nat :=
  (match c.folder_id with | some _ => 1 | none => 0) + 3

/-- Backend calls a chat surface can issue, in issue order. -/
inductive ChatCall where
  | updateContext (c : ChatContextState)
  | sendChatMessage (text : String)
  | clearHistory
deriving DecidableEq, Repr

/-- Local state of a chat surface relevant to `sendMessage` and `clearChat`. -/
structure ChatState where
  messages : List ChatMessage
  inputMessage : String
  isLoading : Bool
  context : ChatContextState
deriving DecidableEq, Repr

/-- The synthetic assistant message appended when a send fails. -/
def chatErrorMessage : ChatMessage :=
  { sender := "ai", message := "Sorry, I encountered an error. Please try again." }

/-- Embeds `sendMessage` of `ChatPage.tsx` / `ChatbotFAB.tsx`.  `ctxPushOk`
is the outcome of the best-effort `updateChatContext` call (the component
wrapper catches and only logs its errors, so it influences nothing);
`sendResult` is the outcome of `api.sendChatMessage`, carrying the assistant
reply on success.  Returns the new state and the backend calls issued. -/
def sendMessage (s : ChatState) (ctxPushOk : Bool)
    (sendResult : Except String String) : ChatState × List ChatCall :=
  if jsTrim s.inputMessage = "" || s.isLoading then (s, [])
  else
    let userMsg : ChatMessage := { sender := "user", message := jsTrim s.inputMessage }
    let calls :=
      (if 0 < contextNumKeys s.context then [ChatCall.updateContext s.context] else []) ++
      [ChatCall.sendChatMessage userMsg.message]
    match sendResult with
    | .ok reply =>
      ({ s with messages := s.messages ++ [userMsg, { sender := "ai", message := reply }],
                inputMessage := "", isLoading := false }, calls)
    | .error _ =>
      ({ s with messages := s.messages ++ [userMsg, chatErrorMessage],
                inputMessage := "", isLoading := false }, calls)

/-- Embeds `clearChat` of `ChatPage.tsx` / `ChatbotFAB.tsx`:
`try (await api.clearChatHistory(sessionId); setMessages([])) catch (log)`.
`api.clearChatHistory` rethrows its errors, so `setMessages([])` runs only
when the call succeeded.  Returns the new local message list and the calls
issued. -/
def clearChat (messages : List ChatMessage) (clearResult : Except String Unit) :
    List ChatMessage × List ChatCall :=
  match clearResult with
  | .ok _ => ([], [ChatCall.clearHistory])
  | .error _ => (messages, [ChatCall.clearHistory])

/-- C1 counterexample: with one local message and a failing backend clear
call, `clearChat` leaves the local message list non-empty, refuting that the
list is cleared unconditionally. -/
theorem clear_chat_keeps_messages_on_failure :
    (clearChat [{ sender := "user", message := "hi" }] (.error "network down")).1 ≠ [] := by
  decide

/-- C1 (amended): `clearChat` always issues the server-side history-deletion
call, clears the local message list when that call succeeds, and leaves the
local message list unchanged when the call fails. -/
theorem clear_chat_behaviour (messages : List ChatMessage) (e : String) :
    (clearChat messages (.ok ())).1 = [] ∧
    (clearChat messages (.error e)).1 = messages ∧
    (∀ r : Except String Unit, (clearChat messages r).2 = [ChatCall.clearHistory]) := by
  refine ⟨rfl, rfl, ?_⟩
  intro r
  cases r <;> rfl

/-- C8: `sendMessage` no-ops (state unchanged, no backend calls) on blank
input or while a send is in flight; otherwise it always pushes the context
first (the context object always has at least its three id-list keys), its
outcome is independent of whether that best-effort push succeeded, exactly
one `sendChatMessage` call is issued (no retry), and on send failure exactly
one synthetic assistant error message is appended after the user message. -/
theorem send_message_behaviour (s : ChatState) (ok : Bool)
    (r : Except String String) (e : String) :
    (jsTrim s.inputMessage = "" → sendMessage s ok r = (s, [])) ∧
    (s.isLoading = true → sendMessage s ok r = (s, [])) ∧
    (sendMessage s true r = sendMessage s false r) ∧
    (jsTrim s.inputMessage ≠ "" → s.isLoading = false →
      ((sendMessage s ok r).2 =
        [ChatCall.updateContext s.context,
         ChatCall.sendChatMessage (jsTrim s.inputMessage)] ∧
       (sendMessage s ok (.error e)).1.messages =
        s.messages ++ [{ sender := "user", message := jsTrim s.inputMessage },
                       chatErrorMessage] ∧
       0 < contextNumKeys s.context)) := by
  refine ⟨?_, ?_, ?_, ?_⟩
  · intro h
    simp [sendMessage, h]
  · intro h
    simp [sendMessage, h]
  · unfold sendMessage
    rfl
  · intro h hl
    have hk : 0 < contextNumKeys s.context := by
      unfold contextNumKeys
      cases s.context.folder_id <;> omega
    refine ⟨?_, ?_, hk⟩
    · cases r <;> simp [sendMessage, h, hl, hk]
    · simp [sendMessage, h, hl, hk]

/-- A closed instance of `send_message_behaviour`, exercising the no-op
branch on blank input and the error-append branch on a concrete state. -/
theorem send_message_behaviour_witness :
    (jsTrim "   " = "" →
      sendMessage { messages := [], inputMessage := "   ", isLoading := false,
                    context := { folder_id := none, selected_link_ids := [],
                                 selected_test_ids := [], selected_submission_ids := [] } }
        true (.ok "reply") =
      ({ messages := [], inputMessage := "   ", isLoading := false,
         context := { folder_id := none, selected_link_ids := [],
                      selected_test_ids := [], selected_submission_ids := [] } }, [])) ∧
    (jsTrim "hello" ≠ "" → false = false →
      ((sendMessage { messages := [], inputMessage := "hello", isLoading := false,
                      context := { folder_id := none, selected_link_ids := [],
                                   selected_test_ids := [], selected_submission_ids := [] } }
          true (.error "boom")).2 =
        [ChatCall.updateContext { folder_id := none, selected_link_ids := [],
                                  selected_test_ids := [], selected_submission_ids := [] },
         ChatCall.sendChatMessage (jsTrim "hello")] ∧
       (sendMessage { messages := [], inputMessage := "hello", isLoading := false,
                      context := { folder_id := none, selected_link_ids := [],
                                   selected_test_ids := [], selected_submission_ids := [] } }
          true (.error "boom")).1.messages =
        [] ++ [{ sender := "user", message := jsTrim "hello" }, chatErrorMessage] ∧
       0 < contextNumKeys { folder_id := none, selected_link_ids := [],
                            selected_test_ids := [], selected_submission_ids := [] })) := by
  constructor
  · exact (send_message_behaviour
      { messages := [], inputMessage := "   ", isLoading := false,
        context := { folder_id := none, selected_link_ids := [],
                     selected_test_ids := [], selected_submission_ids := [] } }
      true (.ok "reply") "boom").1
  · exact (send_message_behaviour
      { messages := [], inputMessage := "hello", isLoading := false,
        context := { folder_id := none, selected_link_ids := [],
                     selected_test_ids := [], selected_submission_ids := [] } }
      true (.error "boom") "boom").2.2.2

/-! ## Results page: self-score save (QuizResults.tsx) -/

/-- Embeds `saveScores` of `QuizResults.tsx`: if the buffered self-score map
is empty it surfaces an error toast and issues no network call; otherwise it
sends the entire buffered map at once via the update-scores mutation. -/
def saveScores (selfScores : List (Nat × Nat)) : Except String (List (Nat × Nat)) :=
  if selfScores.isEmpty then .error "No scores to save"
  else .ok selfScores

/-- C9: saving an empty self-score buffer fails with an error and no network
call; saving a non-empty buffer sends exactly the entire buffered map. -/
theorem save_scores_behaviour (b : List (Nat × Nat)) :
    (b = [] → saveScores b = .error "No scores to save") ∧
    (b ≠ [] → saveScores b = .ok b) := by
  constructor
  · intro h
    simp [saveScores, h]
  · intro h
    simp [saveScores, List.isEmpty_iff, h]

/-- A closed instance of `save_scores_behaviour` at the empty buffer and a
one-entry buffer. -/
theorem save_scores_behaviour_witness :
    (([] : List (Nat × Nat)) = [] → saveScores [] = .error "No scores to save") ∧
    ([(2, 85)] ≠ ([] : List (Nat × Nat)) → saveScores [(2, 85)] = .ok [(2, 85)]) :=
  ⟨(save_scores_behaviour []).1, (save_scores_behaviour [(2, 85)]).2⟩

/-! ## Quiz-taking state machine: timer and auto-submit (TakeQuiz) -/

/-- Run-time state of the quiz-taking timer loop of `TakeQuiz`:
`timeRemaining` is the countdown in seconds, `isSubmitted` the submitted flag,
`answers` the per-question answer map, and `submissions` the list of answer
maps sent to the backend so far (in order). -/
structure QuizRunState where
  timeRemaining : Nat
  isSubmitted : Bool
  answers : List (Nat × String)
  submissions : List (List (Nat × String))
deriving DecidableEq, Repr

/-- Initial state after first render of a test with `estimated_time = e`
minutes: the timer initialisation effect sets `timeRemaining` to
`estimated_time * 60` seconds. -/
def initQuizRun (e : Nat) (answers : List (Nat × String)) : QuizRunState :=
  { timeRemaining := e * 60, isSubmitted := false, answers := answers, submissions := [] }

/-- One second of the countdown effect of `TakeQuiz`: the effect registers no
interval when `timeRemaining <= 0` or the quiz is submitted; otherwise the
interval body decrements, except that at `prev <= 1` it invokes
`handleAutoSubmit` (which submits the current answer map unless already
submitted) and sets the remaining time to `0`. -/
def tick (s : QuizRunState) : QuizRunState :=
  if s.timeRemaining = 0 ∨ s.isSubmitted = true then s
  else if s.timeRemaining ≤ 1 then
    { s with timeRemaining := 0,
             submissions :=
               if s.isSubmitted then s.submissions else s.submissions ++ [s.answers] }
  else { s with timeRemaining := s.timeRemaining - 1 }

/-- Iterate `tick` for `k` simulated seconds. -/
def runTicks : Nat → QuizRunState → QuizRunState
  | 0, s => s
  | k + 1, s => runTicks k (tick s)

theorem tick_decrement (s : QuizRunState) (h : 2 ≤ s.timeRemaining)
    (hs : s.isSubmitted = false) :
    tick s = { s with timeRemaining := s.timeRemaining - 1 } := by
  unfold tick
  split
  · rename_i hc
    rcases hc with hc | hc
    · omega
    · rw [hs] at hc; cases hc
  · split
    · rename_i hc; omega
    · rfl

theorem tick_fire (s : QuizRunState) (h : s.timeRemaining = 1)
    (hs : s.isSubmitted = false) :
    tick s = { s with timeRemaining := 0, submissions := s.submissions ++ [s.answers] } := by
  unfold tick
  split
  · rename_i hc
    rcases hc with hc | hc
    · omega
    · rw [hs] at hc; cases hc
  · split
    · simp [hs]
    · rename_i hc; omega

theorem tick_stay_zero (s : QuizRunState) (h : s.timeRemaining = 0) : tick s = s := by
  unfold tick
  split
  · rfl
  · rename_i hc; exact absurd (Or.inl h) hc

theorem tick_lit_decrement (t : Nat) (a : List (Nat × String))
    (subs : List (List (Nat × String))) (h : 2 ≤ t) :
    tick { timeRemaining := t, isSubmitted := false, answers := a, submissions := subs } =
      { timeRemaining := t - 1, isSubmitted := false, answers := a, submissions := subs } :=
  tick_decrement _ h rfl

theorem tick_lit_fire (a : List (Nat × String)) (subs : List (List (Nat × String))) :
    tick { timeRemaining := 1, isSubmitted := false, answers := a, submissions := subs } =
      { timeRemaining := 0, isSubmitted := false, answers := a,
        submissions := subs ++ [a] } :=
  tick_fire _ rfl rfl

theorem runTicks_zero_stays (k : Nat) (s : QuizRunState) (h : s.timeRemaining = 0) :
    runTicks k s = s := by
  induction k with
  | zero => rfl
  | succ n ih =>
    show runTicks n (tick s) = s
    rw [tick_stay_zero s h]
    exact ih

theorem runTicks_countdown (a : List (Nat × String)) (subs : List (List (Nat × String))) :
    ∀ k t, k < t →
      runTicks k { timeRemaining := t, isSubmitted := false, answers := a, submissions := subs } =
        { timeRemaining := t - k, isSubmitted := false, answers := a, submissions := subs } := by
  intro k
  induction k with
  | zero => intro t _; simp [runTicks]
  | succ n ih =>
    intro t ht
    show runTicks n (tick _) = _
    rw [tick_lit_decrement t a subs (by omega)]
    rw [ih (t - 1) (by omega)]
    congr 1
    omega

theorem runTicks_fires_once (a : List (Nat × String)) (subs : List (List (Nat × String))) :
    ∀ k t, t ≤ k → 1 ≤ t →
      runTicks k { timeRemaining := t, isSubmitted := false, answers := a, submissions := subs } =
        { timeRemaining := 0, isSubmitted := false, answers := a,
          submissions := subs ++ [a] } := by
  intro k
  induction k with
  | zero => intro t h1 h2; omega
  | succ n ih =>
    intro t h1 h2
    show runTicks n (tick _) = _
    rcases Nat.eq_or_lt_of_le h2 with hone | hmore
    · subst hone
      rw [tick_lit_fire a subs]
      exact runTicks_zero_stays n _ rfl
    · rw [tick_lit_decrement t a subs (by omega)]
      exact ih (t - 1) (by omega) (by omega)

/-- C2: for every test specifying an estimated time `e ≥ 1` minutes and any
partial answer map `a` present at first render, the countdown starts at
`e * 60` seconds and decrements by exactly one per simulated second (after
`k < e * 60` seconds exactly `e * 60 - k` seconds remain and nothing has been
submitted), and after `e * 60` or more seconds with no manual interaction the
automatic submission has fired exactly once, carrying exactly the answer map
`a`.  The final conjunct states the "at that moment" guarantee directly: a
tick at one remaining second appends the then-current answer map to the
submissions. -/
theorem timer_auto_submit (e : Nat) (a : List (Nat × String)) (k : Nat) (he : 1 ≤ e) :
    (runTicks 0 (initQuizRun e a)).timeRemaining = e * 60 ∧
    (k < e * 60 →
      runTicks k (initQuizRun e a) =
        { timeRemaining := e * 60 - k, isSubmitted := false, answers := a,
          submissions := [] }) ∧
    (e * 60 ≤ k →
      runTicks k (initQuizRun e a) =
        { timeRemaining := 0, isSubmitted := false, answers := a,
          submissions := [a] }) ∧
    (∀ s : QuizRunState, s.timeRemaining = 1 → s.isSubmitted = false →
      (tick s).submissions = s.submissions ++ [s.answers]) := by
  refine ⟨rfl, ?_, ?_, ?_⟩
  · intro hk
    exact runTicks_countdown a [] k (e * 60) hk
  · intro hk
    exact runTicks_fires_once a [] k (e * 60) hk (by omega)
  · intro s h1 h2
    rw [tick_fire s h1 h2]

/-- A closed instance of `timer_auto_submit`: with `estimated_time = 1` the
timer starts at 60 seconds, after 59 seconds one second remains with nothing
submitted, and after 60 simulated seconds the partial answer map has been
auto-submitted exactly once. -/
theorem timer_auto_submit_witness :
    (runTicks 0 (initQuizRun 1 [(0, "A")])).timeRemaining = 1 * 60 ∧
    (59 < 1 * 60 →
      runTicks 59 (initQuizRun 1 [(0, "A")]) =
        { timeRemaining := 1 * 60 - 59, isSubmitted := false, answers := [(0, "A")],
          submissions := [] }) ∧
    (1 * 60 ≤ 60 →
      runTicks 60 (initQuizRun 1 [(0, "A")]) =
        { timeRemaining := 0, isSubmitted := false, answers := [(0, "A")],
          submissions := [[(0, "A")]] }) := by
  refine ⟨(timer_auto_submit 1 [(0, "A")] 59 (by decide)).1, ?_, ?_⟩
  · exact (timer_auto_submit 1 [(0, "A")] 59 (by decide)).2.1
  · exact (timer_auto_submit 1 [(0, "A")] 60 (by decide)).2.2.1

/-! ## Quiz generation form: URL intake (QuizGenerator.tsx)

The browser `URL` constructor is a platform primitive; it is modelled by an
arbitrary partial parsing function `tryURL` returning the parsed URL (with its
host) on success and `none` where the constructor would throw.  All statements
hold for every such parser. -/

/-- Result of a successful browser `URL` construction; only the parsed host is
relevant here. -/
structure ParsedUrl where
  host : String
deriving DecidableEq, Repr

/-- Embeds the scheme-defaulting of `validateUrl`:
`u.includes("://") ? u : "http://" + u`. -/
def ensureScheme (u : String) : String :=
  if containsSeq "://".data u.data then u else "http://" ++ u

/-- Embeds `validateUrl` of `QuizGenerator.tsx`: URL construction (after
scheme defaulting) succeeds. -/
def validateUrl (tryURL : String → Option ParsedUrl) (u : String) : Bool :=
  (tryURL (ensureScheme u)).isSome

/-- Embeds `parseUrlsFromText` of `QuizGenerator.tsx`: split the textarea
content on line breaks, trim each line, drop empty lines. -/
def parseUrlsFromText (text : String) : List String :=
  (((splitOnChar '\n' text.data).map (fun cs => String.mk (trimChars cs))).filter
    (fun u => u ≠ ""))

/-- JS `Array.from(new Set(l))`: deduplicate keeping the first occurrence of
each element, preserving order. -/
def jsSetDedup (l : List String) : List String :=
  l.foldl (fun acc u => if u ∈ acc then acc else acc ++ [u]) []

/-- Result of one press of the "Add URLs" button. -/
structure UrlIntakeResult where
  urls : List String
  droppedCount : Nat
  addedCount : Nat
deriving DecidableEq, Repr

/-- Embeds `addUrlsToList` of `QuizGenerator.tsx`: parse the textarea, keep
the candidates passing `validateUrl`, report the number of invalid candidates
in a destructive toast, and merge the valid ones into the accumulated list
through `Array.from(new Set([...prev, ...valid]))`. -/
def addUrlsToList (tryURL : String → Option ParsedUrl) (prev : List String)
    (urlsText : String) : UrlIntakeResult :=
  let parsed := parseUrlsFromText urlsText
  let valid := parsed.filter (fun p => validateUrl tryURL p)
  let invalid := parsed.filter (fun p => !(validateUrl tryURL p))
  { urls := jsSetDedup (prev ++ valid),
    droppedCount := invalid.length,
    addedCount := valid.length }

theorem jsSetDedup_go_nodup (l : List String) :
    ∀ acc : List String, acc.Nodup →
      (l.foldl (fun acc u => if u ∈ acc then acc else acc ++ [u]) acc).Nodup := by
  induction l with
  | nil => intro acc h; exact h
  | cons x xs ih =>
    intro acc h
    simp only [List.foldl_cons]
    by_cases hx : x ∈ acc
    · rw [if_pos hx]; exact ih acc h
    · rw [if_neg hx]
      refine ih _ ?_
      rw [List.nodup_append]
      exact ⟨h, List.nodup_singleton x, by
        intro y hy hz
        rw [List.mem_singleton] at hz
        subst hz
        exact hx hy⟩

theorem jsSetDedup_go_mem (l : List String) (x : String) :
    ∀ acc : List String,
      (x ∈ l.foldl (fun acc u => if u ∈ acc then acc else acc ++ [u]) acc ↔
        x ∈ acc ∨ x ∈ l) := by
  induction l with
  | nil => intro acc; simp
  | cons y ys ih =>
    intro acc
    simp only [List.foldl_cons]
    by_cases hy : y ∈ acc
    · rw [if_pos hy, ih]
      constructor
      · rintro (h | h)
        · exact Or.inl h
        · exact Or.inr (List.mem_cons_of_mem y h)
      · rintro (h | h)
        · exact Or.inl h
        · rcases List.mem_cons.mp h with h | h
          · subst h; exact Or.inl hy
          · exact Or.inr h
    · rw [if_neg hy, ih]
      simp only [List.mem_append, List.mem_singleton, List.mem_cons]
      tauto

theorem jsSetDedup_nodup (l : List String) : (jsSetDedup l).Nodup :=
  jsSetDedup_go_nodup l [] List.nodup_nil

theorem jsSetDedup_mem (l : List String) (x : String) : x ∈ jsSetDedup l ↔ x ∈ l := by
  rw [jsSetDedup, jsSetDedup_go_mem]
  simp

theorem length_filter_pos_add_neg {α : Type} (p : α → Bool) (l : List α) :
    (l.filter p).length + (l.filter (fun x => !(p x))).length = l.length := by
  induction l with
  | nil => rfl
  | cons x xs ih =>
    by_cases hx : p x = true
    · simp [List.filter_cons, hx, ih]
      omega
    · simp only [Bool.not_eq_true] at hx
      simp [List.filter_cons, hx, ih]
      omega

/-- C3: for every URL parser, every accumulated list whose entries all
validate, and every pasted text: the parsed candidates are exactly the
non-empty trimmed lines of the text; the dropped count reported to the user
plus the accepted count account for every parsed candidate; the resulting
accumulated list holds exactly the previous entries plus the validating
candidates; it contains no duplicates; and every entry in it passes URL
construction after scheme defaulting (so it has a parseable host). -/
theorem url_intake_correct (tryURL : String → Option ParsedUrl)
    (prev : List String) (text : String)
    (hprev : ∀ u ∈ prev, validateUrl tryURL u = true) :
    (∀ u, u ∈ parseUrlsFromText text ↔
      (u ≠ "" ∧ ∃ line ∈ splitOnChar '\n' text.data, String.mk (trimChars line) = u)) ∧
    (addUrlsToList tryURL prev text).droppedCount +
        (addUrlsToList tryURL prev text).addedCount =
      (parseUrlsFromText text).length ∧
    (∀ u, u ∈ (addUrlsToList tryURL prev text).urls ↔
      (u ∈ prev ∨ (u ∈ parseUrlsFromText text ∧ validateUrl tryURL u = true))) ∧
    (addUrlsToList tryURL prev text).urls.Nodup ∧
    (∀ u ∈ (addUrlsToList tryURL prev text).urls,
      (tryURL (ensureScheme u)).isSome = true) := by
  refine ⟨?_, ?_, ?_, ?_, ?_⟩
  · intro u
    unfold parseUrlsFromText
    rw [List.mem_filter, List.mem_map]
    constructor
    · rintro ⟨⟨line, hline, hmk⟩, hne⟩
      exact ⟨by simpa using hne, line, hline, hmk⟩
    · rintro ⟨hne, line, hline, hmk⟩
      exact ⟨⟨line, hline, hmk⟩, by simpa using hne⟩
  · unfold addUrlsToList
    simp only
    rw [Nat.add_comm]
    exact length_filter_pos_add_neg _ _
  · intro u
    unfold addUrlsToList
    simp only
    rw [jsSetDedup_mem, List.mem_append, List.mem_filter]
  · exact jsSetDedup_nodup _
  · intro u hu
    unfold addUrlsToList at hu
    simp only at hu
    rw [jsSetDedup_mem, List.mem_append, List.mem_filter] at hu
    rcases hu with hu | ⟨_, hu⟩
    · exact hprev u hu
    · exact hu

/-- A concrete URL parser used to instantiate `url_intake_correct`: accepts
exactly two fixed absolute URLs. -/
def demoTryURL (s : String) : Option ParsedUrl :=
  if s = "http://a.com" then some { host := "a.com" }
  else if s = "http://b.com" then some { host := "b.com" }
  else none

/-- A closed instance of `url_intake_correct`: one already-accepted URL, a
pasted text holding a duplicate of it, a fresh valid URL, an invalid line and
blank lines. -/
theorem url_intake_correct_witness :
    (∀ u ∈ ["b.com"], validateUrl demoTryURL u = true) ∧
    ((∀ u, u ∈ parseUrlsFromText " a.com \nnope\n\nb.com" ↔
      (u ≠ "" ∧ ∃ line ∈ splitOnChar '\n' (" a.com \nnope\n\nb.com").data,
        String.mk (trimChars line) = u)) ∧
    (addUrlsToList demoTryURL ["b.com"] " a.com \nnope\n\nb.com").droppedCount +
        (addUrlsToList demoTryURL ["b.com"] " a.com \nnope\n\nb.com").addedCount =
      (parseUrlsFromText " a.com \nnope\n\nb.com").length ∧
    (∀ u, u ∈ (addUrlsToList demoTryURL ["b.com"] " a.com \nnope\n\nb.com").urls ↔
      (u ∈ ["b.com"] ∨ (u ∈ parseUrlsFromText " a.com \nnope\n\nb.com" ∧
        validateUrl demoTryURL u = true))) ∧
    (addUrlsToList demoTryURL ["b.com"] " a.com \nnope\n\nb.com").urls.Nodup ∧
    (∀ u ∈ (addUrlsToList demoTryURL ["b.com"] " a.com \nnope\n\nb.com").urls,
      (demoTryURL (ensureScheme u)).isSome = true)) := by
  constructor
  · decide
  · exact url_intake_correct demoTryURL ["b.com"] " a.com \nnope\n\nb.com" (by decide)

/-! ## Quiz generation form: generate action (QuizGenerator.tsx) -/

/-- The `questionTypes` flag state, with the insertion-ordered keys
`mcq`, `tf`, `short`, `long` of the `useState` object. -/
structure QuestionTypes where
  mcq : Bool
  tf : Bool
  short : Bool
  long : Bool
deriving DecidableEq, Repr

/-- Embeds `Object.keys(questionTypes).filter(k => questionTypes[k])`:
the enabled type keys in object-key order. -/
def selectedTypes (qt : QuestionTypes) : List String :=
  (if qt.mcq then ["mcq"] else []) ++ (if qt.tf then ["tf"] else []) ++
  (if qt.short then ["short"] else []) ++ (if qt.long then ["long"] else [])

/-- Embeds the `typeMapping` lookup with its `|| type` fallback: translate a
UI short code to the backend vocabulary. -/
def typeMapping (t : String) : String :=
  if t = "mcq" then "mcq"
  else if t = "tf" then "true_false"
  else if t = "short" then "short_answer"
  else if t = "long" then "long_answer"
  else t

/-- The form state of `QuizGenerator` relevant to `handleGenerateQuiz`.
Uploaded files are identified by name. -/
structure GenFormState where
  questionCount : Int
  questionTypes : QuestionTypes
  difficulty : String
  urlsText : String
  urlsList : List String
  files : List String
deriving DecidableEq, Repr

/-- The generation request issued to the backend: multipart when files are
present, JSON otherwise.  The auto-generated `test_name` is derived from the
wall clock and is not modelled. -/
inductive GenRequest where
  | multipart (files : List String) (urls : List String) (numQuestions : Int)
      (questionTypes : List String) (difficulty : String)
  | json (urls : List String) (numQuestions : Int)
      (questionTypes : List String) (difficulty : String)
deriving DecidableEq, Repr

/-- Embeds the pre-network part of `handleGenerateQuiz` of
`QuizGenerator.tsx`: fail fast with a destructive toast when no source or no
enabled question type is present (no network call); otherwise build the
request with the mapped question types. -/
def handleGenerateQuiz (s : GenFormState) : Except String GenRequest :=
  if s.urlsList.isEmpty && s.files.isEmpty then
    .error "Please paste links or upload at least one PDF."
  else
    let sel := selectedTypes s.questionTypes
    if sel.isEmpty then
      .error "Please select at least one question type."
    else
      let backendTypes := sel.map typeMapping
      if s.files.isEmpty then
        .ok (.json s.urlsList s.questionCount backendTypes s.difficulty)
      else
        .ok (.multipart s.files s.urlsList s.questionCount backendTypes s.difficulty)

/-- Embeds `hasContent` of `QuizGenerator.tsx`. -/
def hasContent (s : GenFormState) : Bool :=
  !s.urlsList.isEmpty || !s.files.isEmpty

/-- Embeds `hasQuestionTypes` (`Object.values(questionTypes).some(Boolean)`). -/
def hasQuestionTypes (s : GenFormState) : Bool :=
  s.questionTypes.mcq || s.questionTypes.tf || s.questionTypes.short || s.questionTypes.long

/-- Embeds `canGenerate = hasContent && hasQuestionTypes && !loading`,
which gates the generate button. -/
def canGenerate (s : GenFormState) (loading : Bool) : Bool :=
  hasContent s && hasQuestionTypes s && !loading

/-- Does the outcome of `handleGenerateQuiz` issue a network request? -/
def issuesRequest (r : Except String GenRequest) : Bool :=
  match r with
  | .ok _ => true
  | .error _ => false

theorem selectedTypes_empty_iff (qt : QuestionTypes) :
    selectedTypes qt = [] ↔ (qt.mcq || qt.tf || qt.short || qt.long) = false := by
  obtain ⟨m, t, sh, lo⟩ := qt
  cases m <;> cases t <;> cases sh <;> cases lo <;> simp [selectedTypes]

/-- C5: `generate()` issues a network request exactly when at least one
source (URL or file) is collected and at least one question type is enabled;
with zero sources it surfaces the add-content validation message, with
sources but zero enabled types the select-types validation message, and in
both cases no request is built.  The `canGenerate` gate (when not loading)
agrees with the same condition. -/
theorem generate_fails_fast (s : GenFormState) :
    (issuesRequest (handleGenerateQuiz s) = true ↔
      (hasContent s = true ∧ hasQuestionTypes s = true)) ∧
    (hasContent s = false →
      handleGenerateQuiz s = .error "Please paste links or upload at least one PDF.") ∧
    (hasContent s = true → hasQuestionTypes s = false →
      handleGenerateQuiz s = .error "Please select at least one question type.") ∧
    canGenerate s false = (hasContent s && hasQuestionTypes s) := by
  have hsel := selectedTypes_empty_iff s.questionTypes
  have hqt : hasQuestionTypes s = (s.questionTypes.mcq || s.questionTypes.tf ||
      s.questionTypes.short || s.questionTypes.long) := rfl
  refine ⟨?_, ?_, ?_, ?_⟩
  · constructor
    · intro h
      unfold handleGenerateQuiz at h
      by_cases hc : (s.urlsList.isEmpty && s.files.isEmpty) = true
      · rw [if_pos hc] at h; cases h
      · rw [if_neg hc] at h
        by_cases hq : (selectedTypes s.questionTypes).isEmpty = true
        · simp only [hq, if_pos] at h; cases h
        · constructor
          · unfold hasContent
            cases hu : s.urlsList.isEmpty <;> cases hf : s.files.isEmpty <;>
              simp_all
          · rw [hqt, ← Bool.not_eq_false, ← hsel]
            intro hemp
            rw [hemp] at hq
            exact hq rfl
    · rintro ⟨hc, hq⟩
      unfold handleGenerateQuiz
      have hc2 : (s.urlsList.isEmpty && s.files.isEmpty) = false := by
        unfold hasContent at hc
        cases hu : s.urlsList.isEmpty <;> cases hf : s.files.isEmpty <;> simp_all
      rw [if_neg (by simp [hc2])]
      have hne : selectedTypes s.questionTypes ≠ [] := by
        intro hemp
        rw [hsel] at hemp
        rw [hqt] at hq
        rw [hq] at hemp
        cases hemp
      rw [if_neg (by simpa [List.isEmpty_iff] using hne)]
      cases s.files.isEmpty <;> simp [issuesRequest]
  · intro hc
    unfold hasContent at hc
    have hu : s.urlsList.isEmpty = true := by
      cases h : s.urlsList.isEmpty <;> simp_all
    have hf : s.files.isEmpty = true := by
      cases h : s.files.isEmpty <;> simp_all
    unfold handleGenerateQuiz
    rw [if_pos (by simp [hu, hf])]
  · intro hc hq
    unfold handleGenerateQuiz
    have hc2 : (s.urlsList.isEmpty && s.files.isEmpty) = false := by
      unfold hasContent at hc
      cases hu : s.urlsList.isEmpty <;> cases hf : s.files.isEmpty <;> simp_all
    rw [if_neg (by simp [hc2])]
    have hemp : selectedTypes s.questionTypes = [] := by
      rw [hsel, ← hqt]
      exact hq
    rw [if_pos (by simp [hemp])]
  · unfold canGenerate
    cases hasContent s <;> cases hasQuestionTypes s <;> simp

/-- A form state with no sources and the default question types. -/
def genFormNoSources : GenFormState :=
  { questionCount := 15,
    questionTypes := { mcq := true, tf := true, short := false, long := false },
    difficulty := "medium", urlsText := "", urlsList := [], files := [] }

/-- A form state with one URL source and no enabled question type. -/
def genFormNoTypes : GenFormState :=
  { questionCount := 15,
    questionTypes := { mcq := false, tf := false, short := false, long := false },
    difficulty := "medium", urlsText := "", urlsList := ["http://a.com"], files := [] }

/-- A form state with one URL source and one enabled question type. -/
def genFormReady : GenFormState :=
  { questionCount := 15,
    questionTypes := { mcq := true, tf := false, short := false, long := false },
    difficulty := "medium", urlsText := "", urlsList := ["http://a.com"], files := [] }

/-- A closed instance of `generate_fails_fast`: an empty form surfaces the
add-content message; a form with a URL but no enabled type surfaces the
select-types message; a form with a URL and one enabled type issues a
request. -/
theorem generate_fails_fast_witness :
    (hasContent genFormNoSources = false →
      handleGenerateQuiz genFormNoSources =
        .error "Please paste links or upload at least one PDF.") ∧
    (hasContent genFormNoTypes = true → hasQuestionTypes genFormNoTypes = false →
      handleGenerateQuiz genFormNoTypes =
        .error "Please select at least one question type.") ∧
    (issuesRequest (handleGenerateQuiz genFormReady) = true ↔
      (hasContent genFormReady = true ∧ hasQuestionTypes genFormReady = true)) :=
  ⟨(generate_fails_fast genFormNoSources).2.1,
   (generate_fails_fast genFormNoTypes).2.2.1,
   (generate_fails_fast genFormReady).1⟩

/-! ## Quiz generation form: response handling (QuizGenerator.tsx) -/

/-- The `data` object of a generation response, restricted to the three
identifier fields inspected by `handleGenerateQuiz`; `none` models an absent
field. -/
structure GenResponseData where
  test_id : Option String
  quiz_id : Option String
  id : Option String
deriving DecidableEq, Repr

/-- Embeds
`response?.data?.test_id || response?.data?.quiz_id || response?.data?.id`. -/
def extractTestId (d : GenResponseData) : Option String :=
  jsOrStr d.test_id (jsOrStr d.quiz_id d.id)

/-- The user-visible outcome of a finished generation attempt. -/
inductive GenOutcome where
  | navigate (testId : String)
  | errorToast (msg : String)
deriving DecidableEq, Repr

/-- The form after the success path clears it:
`setUrlsList([]); setFiles([]); setUrlsText("")`. -/
def clearedForm (s : GenFormState) : GenFormState :=
  { s with urlsList := [], files := [], urlsText := "" }

/-- Embeds the post-response part of `handleGenerateQuiz`: on a request
failure the catch block surfaces the error and touches no form state; on a
response it extracts the test id via the `||`-chain, navigates and clears the
form when the id is truthy, and otherwise throws the generic
"No test ID received from server" error into the same catch block, leaving
the form intact. -/
def handleGenerateResult :
    GenFormState → Except String GenResponseData → GenFormState × GenOutcome
  | s, .error e => (s, .errorToast e)
  | s, .ok d =>
    match extractTestId d with
    | some t =>
      if t ≠ "" then (clearedForm s, .navigate t)
      else (s, .errorToast "No test ID received from server")
    | none => (s, .errorToast "No test ID received from server")

/-- C6: the test identifier is extracted by consulting `test_id`, `quiz_id`
and `id` in that order, taking the first truthy (present, non-empty) field;
when a truthy id is found the handler navigates to it and clears the form;
when no field yields a truthy id it surfaces the generic no-test-id error
with the form intact; and a failed request likewise leaves the form intact. -/
theorem generate_response_extraction :
    (∀ d : GenResponseData, jsTruthy d.test_id = true → extractTestId d = d.test_id) ∧
    (∀ d : GenResponseData, jsTruthy d.test_id = false → jsTruthy d.quiz_id = true →
      extractTestId d = d.quiz_id) ∧
    (∀ d : GenResponseData, jsTruthy d.test_id = false → jsTruthy d.quiz_id = false →
      extractTestId d = d.id) ∧
    (∀ (s : GenFormState) (d : GenResponseData) (t : String),
      extractTestId d = some t → t ≠ "" →
      handleGenerateResult s (.ok d) = (clearedForm s, .navigate t)) ∧
    (∀ (s : GenFormState) (d : GenResponseData),
      jsTruthy (extractTestId d) = false →
      handleGenerateResult s (.ok d) =
        (s, .errorToast "No test ID received from server")) ∧
    (∀ (s : GenFormState) (e : String),
      handleGenerateResult s (.error e) = (s, .errorToast e)) := by
  refine ⟨?_, ?_, ?_, ?_, ?_, ?_⟩
  · intro d h
    unfold extractTestId jsOrStr
    rw [if_pos h]
  · intro d h1 h2
    unfold extractTestId jsOrStr
    rw [if_neg (by simp [h1]), if_pos h2]
  · intro d h1 h2
    unfold extractTestId jsOrStr
    rw [if_neg (by simp [h1]), if_neg (by simp [h2])]
  · intro s d t hext hne
    simp [handleGenerateResult, hext, hne]
  · intro s d h
    cases hext : extractTestId d with
    | none => simp [handleGenerateResult, hext]
    | some t =>
      rw [hext] at h
      unfold jsTruthy at h
      simp only [decide_eq_false_iff_not, Decidable.not_not] at h
      simp [handleGenerateResult, hext, h]
  · intro s e
    simp [handleGenerateResult]

/-- A closed instance of `generate_response_extraction`: with `test_id`
absent and both `quiz_id` and `id` present, the handler navigates to the
`quiz_id` value and clears the form; with all three fields absent it surfaces
the generic error and keeps the form. -/
theorem generate_response_extraction_witness :
    (jsTruthy (GenResponseData.mk none (some "q7") (some "i9")).test_id = false →
      jsTruthy (GenResponseData.mk none (some "q7") (some "i9")).quiz_id = true →
      extractTestId (GenResponseData.mk none (some "q7") (some "i9")) =
        (GenResponseData.mk none (some "q7") (some "i9")).quiz_id) ∧
    (extractTestId (GenResponseData.mk none (some "q7") (some "i9")) = some "q7" →
      "q7" ≠ "" →
      handleGenerateResult genFormReady (.ok (GenResponseData.mk none (some "q7") (some "i9"))) =
        (clearedForm genFormReady, .navigate "q7")) ∧
    (jsTruthy (extractTestId (GenResponseData.mk none none none)) = false →
      handleGenerateResult genFormReady (.ok (GenResponseData.mk none none none)) =
        (genFormReady, .errorToast "No test ID received from server")) ∧
    (handleGenerateResult genFormReady (.error "timeout") =
      (genFormReady, .errorToast "timeout")) :=
  ⟨generate_response_extraction.2.1 (GenResponseData.mk none (some "q7") (some "i9")),
   generate_response_extraction.2.2.2.1 genFormReady
     (GenResponseData.mk none (some "q7") (some "i9")) "q7",
   generate_response_extraction.2.2.2.2.1 genFormReady (GenResponseData.mk none none none),
   generate_response_extraction.2.2.2.2.2 genFormReady "timeout"⟩

/-! ## Quiz-taking state machine: answer storage (TakeQuiz) -/

/-- Embeds `handleAnswerChange` of `TakeQuiz`: spread the previous `answers`
object and overwrite the entry at the current question index with the given
single string value. -/
def handleAnswerChange (m : List (Nat × String)) (currentQuestion : Nat)
    (value : String) : List (Nat × String) :=
  setIdx m currentQuestion value

/-- Embeds `currentAnswer ? currentAnswer.split(",") : []` of
`handleMultiSelectChange` and of the `multi_select` rendering: the selected
option keys encoded in a stored answer string. -/
def parseSelections (s : String) : List String :=
  if s = "" then [] else (splitOnChar ',' s.data).map String.mk

/-- Embeds `handleMultiSelectChange` of `TakeQuiz`: read the current
selections from the stored comma-joined answer, append the option key when
checked or remove it when unchecked, and store the comma-join of the result
at the current question index. -/
def handleMultiSelectChange (m : List (Nat × String)) (currentQuestion : Nat)
    (opt : String) (checked : Bool) : List (Nat × String) :=
  let currentAnswer := (lookupIdx m currentQuestion).getD ""
  let currentSelections := parseSelections currentAnswer
  let newSelections :=
    if checked then currentSelections ++ [opt]
    else currentSelections.filter (fun sel => sel ≠ opt)
  setIdx m currentQuestion (joinComma newSelections)

theorem lookupIdx_setIdx_same {α : Type} (m : List (Nat × α)) (i : Nat) (v : α) :
    lookupIdx (setIdx m i v) i = some v := by
  induction m with
  | nil => simp [setIdx, lookupIdx]
  | cons p rest ih =>
    obtain ⟨j, w⟩ := p
    by_cases hj : j = i
    · simp [setIdx, lookupIdx, hj]
    · simp only [setIdx, lookupIdx, if_neg hj]
      exact ih

theorem lookupIdx_setIdx_other {α : Type} (m : List (Nat × α)) (i k : Nat) (v : α)
    (hk : k ≠ i) : lookupIdx (setIdx m i v) k = lookupIdx m k := by
  induction m with
  | nil =>
    simp only [setIdx, lookupIdx]
    rw [if_neg (by omega)]
  | cons p rest ih =>
    obtain ⟨j, w⟩ := p
    by_cases hj : j = i
    · subst hj
      simp only [setIdx, if_pos rfl, lookupIdx]
      rw [if_neg (by omega), if_neg (by omega)]
    · simp only [setIdx, if_neg hj, lookupIdx]
      by_cases hjk : j = k
      · rw [if_pos hjk, if_pos hjk]
      · rw [if_neg hjk, if_neg hjk]
        exact ih

theorem splitOnChar_of_not_mem (c : Char) (xs : List Char) (h : c ∉ xs) :
    splitOnChar c xs = [xs] := by
  induction xs with
  | nil => rfl
  | cons x rest ih =>
    have hx : x ≠ c := fun he => h (he ▸ List.mem_cons_self x rest)
    have hrest : c ∉ rest := fun hm => h (List.mem_cons_of_mem x hm)
    simp only [splitOnChar, if_neg (by exact fun he => hx he)]
    rw [ih hrest]

theorem splitOnChar_append_sep (c : Char) (xs ys : List Char) (h : c ∉ xs) :
    splitOnChar c (xs ++ c :: ys) = xs :: splitOnChar c ys := by
  induction xs with
  | nil => simp [splitOnChar]
  | cons x rest ih =>
    have hx : x ≠ c := fun he => h (he ▸ List.mem_cons_self x rest)
    have hrest : c ∉ rest := fun hm => h (List.mem_cons_of_mem x hm)
    simp only [List.cons_append, splitOnChar, if_neg (by exact fun he => hx he),
      List.append_eq]
    rw [ih hrest]

/-- A selection key is storable when it is non-empty and contains no comma:
exactly the condition under which the comma-join encoding of `TakeQuiz` is
lossless. -/
def storableKey (s : String) : Prop := s ≠ "" ∧ ',' ∉ s.data

theorem joinComma_parse_roundtrip (sels : List String)
    (h : ∀ s ∈ sels, storableKey s) :
    parseSelections (joinComma sels) = sels := by
  induction sels with
  | nil => rfl
  | cons s rest ih =>
    obtain ⟨hne, hnc⟩ := h s (List.mem_cons_self s rest)
    cases rest with
    | nil =>
      unfold joinComma parseSelections
      rw [if_neg hne, splitOnChar_of_not_mem ',' s.data hnc]
      simp only [List.map_cons, List.map_nil]
    | cons t rest2 =>
      have hjoin : joinComma (s :: t :: rest2) = s ++ "," ++ joinComma (t :: rest2) := rfl
      have hdata : (joinComma (s :: t :: rest2)).data =
          s.data ++ ',' :: (joinComma (t :: rest2)).data := by
        rw [hjoin, String.data_append, String.data_append]
        show s.data ++ [','] ++ (joinComma (t :: rest2)).data = _
        simp
      have hne2 : joinComma (s :: t :: rest2) ≠ "" := by
        intro he
        have h0 : (joinComma (s :: t :: rest2)).data = [] := by rw [he]
        rw [hdata] at h0
        simp at h0
      unfold parseSelections
      rw [if_neg hne2, hdata, splitOnChar_append_sep ',' s.data _ hnc]
      have ihr := ih (fun u hu => h u (List.mem_cons_of_mem s hu))
      unfold parseSelections at ihr
      have hne3 : joinComma (t :: rest2) ≠ "" := by
        obtain ⟨hnet, _⟩ := h t (List.mem_cons_of_mem s (List.mem_cons_self t rest2))
        cases rest2 with
        | nil => exact hnet
        | cons u rest3 =>
          intro he
          have h0 : (joinComma (t :: u :: rest3)).data = [] := by rw [he]
          rw [show (joinComma (t :: u :: rest3)).data =
              t.data ++ ',' :: (joinComma (u :: rest3)).data from by
            rw [show joinComma (t :: u :: rest3) = t ++ "," ++ joinComma (u :: rest3)
                from rfl, String.data_append, String.data_append]
            show t.data ++ [','] ++ (joinComma (u :: rest3)).data = _
            simp] at h0
          simp at h0
      rw [if_neg hne3] at ihr
      simp only [List.map_cons]
      rw [ihr]

/-- C7: `handleAnswerChange` stores the given single string at exactly the
given index (other indices unchanged); `handleMultiSelectChange` also touches
only the current index and stores the comma-join of the previously encoded
selections with the option key appended (checked) or removed (unchecked);
and for storable keys (non-empty, comma-free) the stored encoding decodes to
exactly the previous selections plus or minus that key. -/
theorem answer_storage (m : List (Nat × String)) (i k : Nat) (v opt : String)
    (checked : Bool) (hk : k ≠ i) :
    lookupIdx (handleAnswerChange m i v) i = some v ∧
    lookupIdx (handleAnswerChange m i v) k = lookupIdx m k ∧
    lookupIdx (handleMultiSelectChange m i opt checked) k = lookupIdx m k ∧
    lookupIdx (handleMultiSelectChange m i opt true) i =
      some (joinComma
        (parseSelections ((lookupIdx m i).getD "") ++ [opt])) ∧
    lookupIdx (handleMultiSelectChange m i opt false) i =
      some (joinComma
        ((parseSelections ((lookupIdx m i).getD "")).filter (fun sel => sel ≠ opt))) ∧
    (∀ sels : List String, (∀ s ∈ sels, storableKey s) → storableKey opt →
      (lookupIdx m i).getD "" = joinComma sels →
      parseSelections
        ((lookupIdx (handleMultiSelectChange m i opt true) i).getD "") =
        sels ++ [opt]) := by
  refine ⟨lookupIdx_setIdx_same m i v, lookupIdx_setIdx_other m i k v hk,
    lookupIdx_setIdx_other m i k _ hk, lookupIdx_setIdx_same m i _,
    lookupIdx_setIdx_same m i _, ?_⟩
  intro sels hsels hopt hcur
  unfold handleMultiSelectChange
  simp only [if_pos rfl]
  rw [lookupIdx_setIdx_same]
  simp only [Option.getD_some]
  rw [hcur, joinComma_parse_roundtrip sels hsels]
  exact joinComma_parse_roundtrip (sels ++ [opt]) (by
    intro s hs
    rcases List.mem_append.mp hs with hs | hs
    · exact hsels s hs
    · rw [List.mem_singleton] at hs
      subst hs
      exact hopt)

/-- A closed instance of `answer_storage`: overwriting index 2 in a two-entry
answer map, and checking option "c" on a multi-select whose stored answer is
"a,b". -/
theorem answer_storage_witness :
    (1 : Nat) ≠ 2 ∧
    lookupIdx (handleAnswerChange [(2, "old"), (1, "x")] 2 "new") 2 = some "new" ∧
    lookupIdx (handleAnswerChange [(2, "old"), (1, "x")] 2 "new") 1 =
      lookupIdx [(2, "old"), (1, "x")] 1 ∧
    lookupIdx (handleMultiSelectChange [(2, "a,b"), (1, "x")] 2 "c" true) 2 =
      some (joinComma
        (parseSelections ((lookupIdx [(2, "a,b"), (1, "x")] 2).getD "") ++ ["c"])) ∧
    parseSelections
      ((lookupIdx (handleMultiSelectChange [(2, "a,b"), (1, "x")] 2 "c" true) 2).getD "") =
      ["a", "b"] ++ ["c"] := by
  have h := answer_storage [(2, "a,b"), (1, "x")] 2 1 "new" "c" true (by decide)
  have h2 := answer_storage [(2, "old"), (1, "x")] 2 1 "new" "c" true (by decide)
  refine ⟨by decide, h2.1, h2.2.1, h.2.2.2.1, ?_⟩
  refine h.2.2.2.2.2 ["a", "b"] ?_ ?_ ?_
  · intro s hs
    rcases List.mem_cons.mp hs with hs | hs
    · subst hs; exact ⟨by decide, by decide⟩
    · rw [List.mem_singleton] at hs; subst hs; exact ⟨by decide, by decide⟩
  · exact ⟨by decide, by decide⟩
  · decide

/-! ## Results page: locally recomputed statistics (QuizResults.tsx) -/

/-- A reviewed question of a submission, restricted to the fields the
statistics and the self-assessment slider read.  `qtype` embeds the `type`
field; `correct_answer` is optional and compared with `===` against the
user answer string. -/
structure QuestionResult where
  qtype : String
  user_answer : String
  user_score : Option Nat
  correct_answer : Option String
deriving DecidableEq, Repr

/-- A question scored objectively: `q.type === 'mcq' || q.type === 'true_false'`. -/
def isObjective (q : QuestionResult) : Bool :=
  q.qtype = "mcq" || q.qtype = "true_false"

/-- JS `user_answer === correct_answer` where `correct_answer` may be absent
(a string is never strictly equal to `undefined`). -/
def jsStrictEq (u : String) (c : Option String) : Bool :=
  match c with
  | some s => u = s
  | none => false

/-- The effective score of a subjective question in the statistics pass:
`q.user_score || selfScores[index] || 0` (server score first, then the
buffered self-score, then 0; a stored 0 is falsy). -/
def effectiveScore (selfScores : List (Nat × Nat)) (q : QuestionResult)
    (index : Nat) : Nat :=
  jsOrNat q.user_score (jsOrNat (lookupIdx selfScores index) 0)

/-- Embeds the `questions.forEach` accumulation of the `statistics` memo of
`QuizResults.tsx`, returning `(totalScore, scoredQuestions, correctAnswers)`:
an objective question always counts as scored and contributes 100 when
correct; a subjective question counts and contributes its effective score
only when that score is positive. -/
def tallyQuestions (ss : List (Nat × Nat)) : Nat → List QuestionResult → Nat × Nat × Nat
  | _, [] => (0, 0, 0)
  | index, q :: rest =>
    if isObjective q then
      if jsStrictEq q.user_answer q.correct_answer then
        ((tallyQuestions ss (index + 1) rest).1 + 100,
         (tallyQuestions ss (index + 1) rest).2.1 + 1,
         (tallyQuestions ss (index + 1) rest).2.2 + 1)
      else
        ((tallyQuestions ss (index + 1) rest).1,
         (tallyQuestions ss (index + 1) rest).2.1 + 1,
         (tallyQuestions ss (index + 1) rest).2.2)
    else
      if 0 < effectiveScore ss q index then
        ((tallyQuestions ss (index + 1) rest).1 + effectiveScore ss q index,
         (tallyQuestions ss (index + 1) rest).2.1 + 1,
         (tallyQuestions ss (index + 1) rest).2.2)
      else tallyQuestions ss (index + 1) rest

/-- The statistics object returned by the memo (`totalScore` is a local
variable of the source, surfaced only through `averageScore`). -/
structure Stats where
  totalQuestions : Nat
  answered : Nat
  correctAnswers : Nat
  averageScore : ℚ
  scoredQuestions : Nat
deriving DecidableEq, Repr

/-- Embeds the `statistics` memo of `QuizResults.tsx`. -/
def computeStatistics (qs : List QuestionResult) (ss : List (Nat × Nat)) : Stats :=
  { totalQuestions := qs.length,
    answered := (qs.filter
      (fun q => q.user_answer ≠ "" && jsTrim q.user_answer ≠ "")).length,
    correctAnswers := (tallyQuestions ss 0 qs).2.2,
    averageScore :=
      if 0 < (tallyQuestions ss 0 qs).2.1 then
        ((tallyQuestions ss 0 qs).1 : ℚ) / ((tallyQuestions ss 0 qs).2.1 : ℚ)
      else 0,
    scoredQuestions := (tallyQuestions ss 0 qs).2.1 }

/-- Embeds the self-assessment `Slider` seeding of `QuizResults.tsx`:
`selfScores[index] || question.user_score || 0`. -/
def sliderSeed (selfScores : List (Nat × Nat)) (q : QuestionResult)
    (index : Nat) : Nat :=
  jsOrNat (lookupIdx selfScores index) (jsOrNat q.user_score 0)

theorem tally_spec (ss : List (Nat × Nat)) :
    ∀ (qs : List QuestionResult) (n : Nat),
      (tallyQuestions ss n qs).1 =
        100 * ((List.enumFrom n qs).countP
          (fun p => isObjective p.2 && jsStrictEq p.2.user_answer p.2.correct_answer)) +
        (((List.enumFrom n qs).filter (fun p => !isObjective p.2)).map
          (fun p => effectiveScore ss p.2 p.1)).sum ∧
      (tallyQuestions ss n qs).2.1 =
        (List.enumFrom n qs).countP
          (fun p => isObjective p.2 || decide (0 < effectiveScore ss p.2 p.1)) ∧
      (tallyQuestions ss n qs).2.2 =
        (List.enumFrom n qs).countP
          (fun p => isObjective p.2 && jsStrictEq p.2.user_answer p.2.correct_answer) := by
  intro qs
  induction qs with
  | nil => intro n; simp [tallyQuestions, List.enumFrom]
  | cons q rest ih =>
    intro n
    obtain ⟨ih1, ih2, ih3⟩ := ih (n + 1)
    by_cases ho : isObjective q = true <;>
      by_cases hc : jsStrictEq q.user_answer q.correct_answer = true <;>
        by_cases hp : 0 < effectiveScore ss q n <;>
          refine ⟨?_, ?_, ?_⟩ <;>
            simp [tallyQuestions, List.enumFrom, List.countP_cons, List.filter_cons,
              ho, hc, hp, ih1, ih2, ih3] <;>
              omega

theorem tally_congr (ss1 ss2 : List (Nat × Nat))
    (h : ∀ q j, effectiveScore ss1 q j = effectiveScore ss2 q j) :
    ∀ (qs : List QuestionResult) (n : Nat),
      tallyQuestions ss1 n qs = tallyQuestions ss2 n qs := by
  intro qs
  induction qs with
  | nil => intro n; rfl
  | cons q rest ih =>
    intro n
    simp only [tallyQuestions, ih (n + 1), h q n]

/-- C10: in the locally recomputed statistics, the scored-question count is
exactly the objective questions plus the subjective questions with positive
effective score (server score, else buffered self-score, else 0); the correct
count is exactly the objective questions whose user answer strictly equals
the correct answer; the displayed average is the accumulated total (100 per
correct objective question plus the effective scores of the subjective
questions) divided by that scored count; buffering a self-score of 0 for a
question with no previously buffered score leaves the whole statistics object
unchanged (so a 0 self-score never lowers the average); and the slider seed
falls back from the buffered score through the server score to 0. -/
theorem statistics_scoring (qs : List QuestionResult) (ss b : List (Nat × Nat))
    (i : Nat) (q : QuestionResult) :
    ((computeStatistics qs ss).scoredQuestions =
      (List.enumFrom 0 qs).countP
        (fun p => isObjective p.2 || decide (0 < effectiveScore ss p.2 p.1))) ∧
    ((computeStatistics qs ss).correctAnswers =
      (List.enumFrom 0 qs).countP
        (fun p => isObjective p.2 && jsStrictEq p.2.user_answer p.2.correct_answer)) ∧
    (0 < (computeStatistics qs ss).scoredQuestions →
      (computeStatistics qs ss).averageScore =
        ((100 * ((List.enumFrom 0 qs).countP
            (fun p => isObjective p.2 && jsStrictEq p.2.user_answer p.2.correct_answer)) +
          (((List.enumFrom 0 qs).filter (fun p => !isObjective p.2)).map
            (fun p => effectiveScore ss p.2 p.1)).sum : Nat) : ℚ) /
        (((computeStatistics qs ss).scoredQuestions : Nat) : ℚ)) ∧
    (lookupIdx b i = none →
      computeStatistics qs (setIdx b i 0) = computeStatistics qs b) ∧
    (∀ n : Nat, lookupIdx b i = some n → n ≠ 0 → sliderSeed b q i = n) ∧
    (∀ m : Nat, jsOrNat (lookupIdx b i) 0 = 0 → q.user_score = some m → m ≠ 0 →
      sliderSeed b q i = m) ∧
    (jsOrNat (lookupIdx b i) 0 = 0 → jsOrNat q.user_score 0 = 0 →
      sliderSeed b q i = 0) := by
  obtain ⟨ht1, ht2, ht3⟩ := tally_spec ss qs 0
  refine ⟨ht2, ht3, ?_, ?_, ?_, ?_, ?_⟩
  · intro hpos
    unfold computeStatistics at hpos ⊢
    simp only at hpos ⊢
    rw [if_pos hpos, ht1, ht2]
  · intro hnone
    have heff : ∀ r j, effectiveScore (setIdx b i 0) r j = effectiveScore b r j := by
      intro r j
      unfold effectiveScore
      by_cases hj : j = i
      · subst hj
        rw [lookupIdx_setIdx_same, hnone]
        rfl
      · rw [lookupIdx_setIdx_other b i j 0 hj]
    unfold computeStatistics
    rw [tally_congr (setIdx b i 0) b heff qs 0]
  · intro n hl hn
    unfold sliderSeed
    rw [hl]
    simp [jsOrNat, hn]
  · intro m hfalsy hu hm
    unfold sliderSeed
    have hbuf : ∀ x : Nat, jsOrNat (lookupIdx b i) x = x := by
      intro x
      cases hl : lookupIdx b i with
      | none => rfl
      | some n =>
        rw [hl] at hfalsy
        by_cases hn : n = 0
        · subst hn; rfl
        · simp [jsOrNat, hn] at hfalsy
    rw [hbuf, hu]
    simp [jsOrNat, hm]
  · intro hfalsy hufalsy
    unfold sliderSeed
    cases hl : lookupIdx b i with
    | none => exact hufalsy
    | some n =>
      rw [hl] at hfalsy
      by_cases hn : n = 0
      · subst hn
        exact hufalsy
      · simp [jsOrNat, hn] at hfalsy

/-- Concrete review data for the `statistics_scoring` witness: a correct
objective question, a subjective question with a buffered self-score of 60,
and a subjective question with effective score 0. -/
def demoQuestions : List QuestionResult :=
  [ { qtype := "mcq", user_answer := "a", user_score := none, correct_answer := some "a" },
    { qtype := "short_answer", user_answer := "essay", user_score := none,
      correct_answer := none },
    { qtype := "long_answer", user_answer := "", user_score := none,
      correct_answer := none } ]

/-- A closed instance of `statistics_scoring` on `demoQuestions` with a
buffered self-score of 60 for question 1: exercises the average formula at a
positive scored count, the zero-self-score invariance at question 2, and the
slider seed fallbacks. -/
theorem statistics_scoring_witness :
    (0 < (computeStatistics demoQuestions [(1, 60)]).scoredQuestions →
      (computeStatistics demoQuestions [(1, 60)]).averageScore =
        ((100 * ((List.enumFrom 0 demoQuestions).countP
            (fun p => isObjective p.2 && jsStrictEq p.2.user_answer p.2.correct_answer)) +
          (((List.enumFrom 0 demoQuestions).filter (fun p => !isObjective p.2)).map
            (fun p => effectiveScore [(1, 60)] p.2 p.1)).sum : Nat) : ℚ) /
        (((computeStatistics demoQuestions [(1, 60)]).scoredQuestions : Nat) : ℚ)) ∧
    (lookupIdx [(1, 60)] 2 = none →
      computeStatistics demoQuestions (setIdx [(1, 60)] 2 0) =
        computeStatistics demoQuestions [(1, 60)]) ∧
    (lookupIdx [(1, 60)] 1 = some 60 → (60 : Nat) ≠ 0 →
      sliderSeed [(1, 60)]
        { qtype := "short_answer", user_answer := "essay", user_score := none,
          correct_answer := none } 1 = 60) ∧
    (jsOrNat (lookupIdx [(1, 60)] 0) 0 = 0 →
      some 75 = some (75 : Nat) → (75 : Nat) ≠ 0 →
      sliderSeed [(1, 60)]
        { qtype := "mcq", user_answer := "a", user_score := some 75,
          correct_answer := some "a" } 0 = 75) :=
  ⟨(statistics_scoring demoQuestions [(1, 60)] [(1, 60)] 2
      { qtype := "short_answer", user_answer := "essay", user_score := none,
        correct_answer := none }).2.2.1,
   (statistics_scoring demoQuestions [(1, 60)] [(1, 60)] 2
      { qtype := "short_answer", user_answer := "essay", user_score := none,
        correct_answer := none }).2.2.2.1,
   fun h1 h2 => (statistics_scoring demoQuestions [(1, 60)] [(1, 60)] 1
      { qtype := "short_answer", user_answer := "essay", user_score := none,
        correct_answer := none }).2.2.2.2.1 60 h1 h2,
   fun h1 h2 h3 => (statistics_scoring demoQuestions [(1, 60)] [(1, 60)] 0
      { qtype := "mcq", user_answer := "a", user_score := some 75,
        correct_answer := some "a" }).2.2.2.2.2.1 75 h1 h2 h3⟩
